import Mathlib

/-!
Entitlement and usage-metering logic of the caption-ai server.

Shallow embedding of the quota / subscription / webhook logic of the
caption-ai repository.  The repository contains several near-duplicate
variants of the same Express server; the definitions below embed, variant
by variant, the handlers the claims refer to:

* `generateV1`, `optimizeV1` — the first `server.js` variant
  (POST /generate lines 120-178, POST /optimize lines 181-237);
* `generateV2` — the second `server.js` variant (POST /generate
  lines 555-627), which increments the counter only after a successful
  generation call;
* `webhookV1` — the first `server.js` webhook (lines 278-306);
* `webhookV2` — the second `server.js` webhook (lines 698-804), whose
  invoice.payment_failed case is identical to `src/unnamed/part_003`
  lines 446-457;
* `checkSubscriptionV1`, `checkSubscriptionP0` — the GET
  /check-subscription handlers of `server.js` (lines 85-112) and of
  `src/unnamed/part_000` (lines 73-93);
* `generateP1` — the `src/unnamed/part_001` variant whose
  `refreshStripeSubscriptionStatus` (lines 349-369) maps a thrown
  billing call to `false` instead of `null`;
* `generateP4`, `optimizeP4` — the `src/unnamed/part_004` handlers
  (textually identical in `src/unnamed/part_005`), which seed the stored
  count from the client-supplied `currentGenerations` field;
* `raceStep` / `raceRun` — an interleaving model of N concurrent
  requests against the first `server.js` /generate handler.

External collaborators (the Stripe API, the Groq generation API) are
modelled by their observable outcomes, passed as inputs: the Stripe
subscription check is a tri-state (`active` / `inactive` / `unknown`,
mirroring `true` / `false` / `null`), the generation call is a success
flag, and webhook signature verification is a validity flag.
-/

namespace CaptionAI

/-- JS `email.toLowerCase().trim()`, the key normalization used by
`getUserUsage` and `isVipEmail` in every variant: lowercase every
character, then strip leading and trailing whitespace. -/
def normalizeEmail (e : String) : String :=
  let lowered := e.data.map Char.toLower
  String.mk (((lowered.dropWhile Char.isWhitespace).reverse.dropWhile
    Char.isWhitespace).reverse)

/-- server.js line 52 / line 370: one entry of the in-memory `usage` map,
`{ generations: 0, subscribed: isVip }`. -/
structure UsageRecord where
  generations : Nat
  subscribed : Bool
deriving DecidableEq, Repr

/-- The in-memory `usage` object: a JS object keyed by normalized email,
modelled as an association list. -/
abbrev Store := List (String × UsageRecord)

/-- Reading `usage[key]`. -/
def lookupRec : Store → String → Option UsageRecord
  | [], _ => none
  | (k, v) :: rest, key => if k = key then some v else lookupRec rest key

/-- Writing `usage[key] = record` (also the net effect of mutating the
record object returned by `getUserUsage`, which is a live reference into
the map). -/
def insertRec : Store → String → UsageRecord → Store
  | [], key, v => [(key, v)]
  | (k, w) :: rest, key, v =>
      if k = key then (key, v) :: rest else (k, w) :: insertRec rest key v

/-- The VIP list is loaded from `free-pro-users.json` (not part of src/),
so it is a parameter; `isVipEmail` (server.js lines 18-21) membership-tests
the normalized email against the pre-normalized list. -/
def isVipEmail (vips : List String) (e : String) : Bool :=
  (vips.contains (normalizeEmail e) : Bool)

/-- The three outcomes of `refreshStripeSubscriptionStatus` (server.js
lines 58-80): `true`, `false`, or `null` when the Stripe API call throws. -/
inductive StripeStatus
  | active
  | inactive
  | unknown
deriving DecidableEq, Repr

/-- JS `x || 0` applied to a number: the identity except that it pins a
falsy `0` to `0` (server.js line 141 `record.generations = record.generations || 0`). -/
def jsOrZero (n : Nat) : Nat :=
  if n = 0 then 0 else n

/-- The SUBSCRIPTION LOGIC block of server.js /generate (lines 129-149),
repeated verbatim in /optimize (lines 190-208): `=== true` persists
`subscribed = true`; `=== false && !isVip` persists `subscribed = false`
(and rewrites the count through `|| 0`); `null` leaves the record alone;
finally a VIP is unconditionally marked subscribed. -/
def subscriptionUpdate (isVip : Bool) (stripe : StripeStatus)
    (r : UsageRecord) : UsageRecord :=
  let r1 :=
    match stripe with
    | .active => { r with subscribed := true }
    | .inactive =>
        if !isVip then
          { r with subscribed := false, generations := jsOrZero r.generations }
        else r
    | .unknown => r
  if isVip then { r1 with subscribed := true } else r1

/-- Observable outcome of a metered request: HTTP status, the usage map
after the handler returns, and whether the generation API was invoked. -/
structure GenResult where
  status : Nat
  store : Store
  aiCalled : Bool
deriving DecidableEq, Repr

/-- POST /generate, first server.js variant (lines 120-178).
Inputs: the VIP list, the configured `FREE_TIER_LIMIT`, whether the
required body fields are present (line 123), the email, the Stripe
outcome, whether the Groq call succeeds, and the current usage map.
`getUserUsage` (lines 47-55) lazily creates `{generations 0, subscribed
isVip}` and hands out a live reference, so the subscription-logic
mutations persist even on the 402 path; the counter is incremented at
line 156, before the Groq call, and is not rolled back in the catch
(line 174-177). -/
def generateV1 (vips : List String) (freeLimit : Nat) (fieldsPresent : Bool)
    (email : String) (stripe : StripeStatus) (groqOk : Bool)
    (store : Store) : GenResult :=
  if !fieldsPresent then
    { status := 400, store := store, aiCalled := false }
  else
    let key := normalizeEmail email
    let isVip := isVipEmail vips email
    let r0 := (lookupRec store key).getD { generations := 0, subscribed := isVip }
    let r1 := subscriptionUpdate isVip stripe r0
    if !r1.subscribed && freeLimit ≤ r1.generations then
      { status := 402, store := insertRec store key r1, aiCalled := false }
    else
      let r2 := { r1 with generations := r1.generations + 1 }
      if groqOk then
        { status := 200, store := insertRec store key r2, aiCalled := true }
      else
        { status := 500, store := insertRec store key r2, aiCalled := true }

/-- POST /optimize, first server.js variant (lines 181-237): apart from
the prompt text and the exact required-field list (both abstracted), its
entitlement, quota and accounting logic is line-for-line the same as
/generate, so its embedding has the same body. -/
def optimizeV1 (vips : List String) (freeLimit : Nat) (fieldsPresent : Bool)
    (email : String) (stripe : StripeStatus) (groqOk : Bool)
    (store : Store) : GenResult :=
  if !fieldsPresent then
    { status := 400, store := store, aiCalled := false }
  else
    let key := normalizeEmail email
    let isVip := isVipEmail vips email
    let r0 := (lookupRec store key).getD { generations := 0, subscribed := isVip }
    let r1 := subscriptionUpdate isVip stripe r0
    if !r1.subscribed && freeLimit ≤ r1.generations then
      { status := 402, store := insertRec store key r1, aiCalled := false }
    else
      let r2 := { r1 with generations := r1.generations + 1 }
      if groqOk then
        { status := 200, store := insertRec store key r2, aiCalled := true }
      else
        { status := 500, store := insertRec store key r2, aiCalled := true }

/-- POST /generate, second server.js variant (lines 555-627): identical
gate, but the counter is incremented only inside the try block, after the
Groq call has succeeded ("Increment usage only on successful AI
generation", line 617). -/
def generateV2 (vips : List String) (freeLimit : Nat) (fieldsPresent : Bool)
    (email : String) (stripe : StripeStatus) (groqOk : Bool)
    (store : Store) : GenResult :=
  if !fieldsPresent then
    { status := 400, store := store, aiCalled := false }
  else
    let key := normalizeEmail email
    let isVip := isVipEmail vips email
    let r0 := (lookupRec store key).getD { generations := 0, subscribed := isVip }
    let r1 := subscriptionUpdate isVip stripe r0
    if !r1.subscribed && freeLimit ≤ r1.generations then
      { status := 402, store := insertRec store key r1, aiCalled := false }
    else if groqOk then
      let r2 := { r1 with generations := r1.generations + 1 }
      { status := 200, store := insertRec store key r2, aiCalled := true }
    else
      { status := 500, store := insertRec store key r1, aiCalled := true }

/-- server.js hard-codes `const FREE_TIER_LIMIT = 10` (line 11). -/
def FREE_TIER_LIMIT : Nat := 10

/-! ## Webhook receivers -/

/-- The Stripe event kinds the webhook handlers branch on.  `other`
covers every unhandled `event.type` (the default case). -/
inductive EventType
  | checkoutCompleted
  | invoicePaymentSucceeded
  | invoicePaymentFailed
  | other
deriving DecidableEq, Repr

/-- An inbound webhook delivery: whether
`stripe.webhooks.constructEvent` accepts the provider signature, the
event type, and the email resolved from the payload
(`customer_email` / metadata; `none` when resolution fails). -/
structure WebhookDelivery where
  sigValid : Bool
  eventType : EventType
  email : Option String
deriving DecidableEq, Repr

/-- POST /webhook, first server.js variant (lines 278-306): a signature
failure is answered 400 with no state change; otherwise only
`checkout.session.completed` with a resolvable email overwrites the
record with `{ generations: 0, subscribed: true }` (line 300), and the
handler always answers 200 (`res.json({received: true})`). -/
def webhookV1 (store : Store) (d : WebhookDelivery) : Nat × Store :=
  if !d.sigValid then
    (400, store)
  else
    match d.eventType, d.email with
    | .checkoutCompleted, some e =>
        (200, insertRec store (normalizeEmail e) { generations := 0, subscribed := true })
    | _, _ => (200, store)

/-- POST /webhook, second server.js variant (lines 698-804).
`invoice.payment_succeeded` overwrites the record with
`{ generations: 0, subscribed: true }` (line 739; the affiliate transfer
that follows does not touch the usage map).  `invoice.payment_failed`
(lines 784-797) downgrades only when the email is resolvable and not
VIP: `record.subscribed = false; record.generations = 0`.  The
`invoice.payment_failed` case of `src/unnamed/part_003` (lines 446-457)
is textually identical. -/
def webhookV2 (vips : List String) (store : Store) (d : WebhookDelivery) :
    Nat × Store :=
  if !d.sigValid then
    (400, store)
  else
    match d.eventType, d.email with
    | .invoicePaymentSucceeded, some e =>
        (200, insertRec store (normalizeEmail e) { generations := 0, subscribed := true })
    | .invoicePaymentFailed, some e =>
        if isVipEmail vips e then (200, store)
        else
          (200, insertRec store (normalizeEmail e) { generations := 0, subscribed := false })
    | _, _ => (200, store)

/-! ## Entitlement query endpoints -/

/-- GET /check-subscription, server.js (lines 85-112): it reads the VIP
list and (for non-VIPs) queries Stripe, then responds; the handler never
references the `usage` map, so the store is returned untouched.  Only
the status and the store are modelled. -/
def checkSubscriptionV1 (email : Option String) (store : Store) : Nat × Store :=
  match email with
  | none => (400, store)
  | some _ => (200, store)

/-- One document of the `users` MongoDB collection of
`src/unnamed/part_000` (`src/models/User.js`): `freeGenerations`
defaults to 0 and `isPro` to false; the schema lowercases and trims the
email key. -/
structure UserDoc where
  freeGenerations : Nat
  isPro : Bool
deriving DecidableEq, Repr

/-- The MongoDB-backed user store of `src/unnamed/part_000`. -/
abbrev UserStore := List (String × UserDoc)

/-- `User.findOne({ email })`. -/
def lookupUser : UserStore → String → Option UserDoc
  | [], _ => none
  | (k, v) :: rest, key => if k = key then some v else lookupUser rest key

/-- `User.create({ email })` / `findOneAndUpdate` persistence. -/
def insertUser : UserStore → String → UserDoc → UserStore
  | [], key, v => [(key, v)]
  | (k, w) :: rest, key, v =>
      if k = key then (key, v) :: rest else (k, w) :: insertUser rest key v

/-- GET /check-subscription, `src/unnamed/part_000` (lines 73-93): the
handler runs `let user = await User.findOne({ email }); if (!user) user
= await User.create({ email });`, so a query for an unseen identity
persists a fresh default document before answering 200. -/
def checkSubscriptionP0 (email : Option String) (store : UserStore) :
    Nat × UserStore :=
  match email with
  | none => (400, store)
  | some e =>
      let key := normalizeEmail e
      match lookupUser store key with
      | some _ => (200, store)
      | none => (200, insertUser store key { freeGenerations := 0, isPro := false })

/-! ## The part_001 variant: a thrown billing call maps to `false` -/

/-- `refreshStripeSubscriptionStatus` of `src/unnamed/part_001` (lines
349-369): unlike server.js, its catch block returns `false`, so a thrown
provider call is indistinguishable from a confirmed "not subscribed".
`providerActive` is what the provider would answer; `callThrows` is
whether the call throws. -/
def refreshP1 (providerActive : Bool) (callThrows : Bool) : Bool :=
  if callThrows then false else providerActive

/-- POST /generate of `src/unnamed/part_001` (lines 411-445): its
subscription / free-tier / accounting body is elided in the source with
"remains the same", i.e. the server.js logic of `generateV1`, but fed by
`refreshP1`, which only ever produces `true` or `false` — so the
`=== false && !isVip` branch also fires when the billing call threw. -/
def generateP1 (vips : List String) (freeLimit : Nat) (fieldsPresent : Bool)
    (email : String) (providerActive : Bool) (callThrows : Bool)
    (groqOk : Bool) (store : Store) : GenResult :=
  let stripe : StripeStatus :=
    if refreshP1 providerActive callThrows then .active else .inactive
  generateV1 vips freeLimit fieldsPresent email stripe groqOk store

/-! ## The part_004 / part_005 variant: client-seeded counters -/

/-- One entry of the `usage` map of `src/unnamed/part_004` /
`src/unnamed/part_005`: `{ subscribed: false, generations: 0, lastCheck: 0 }`. -/
structure UsageRecordP4 where
  subscribed : Bool
  generations : Nat
  lastCheck : Nat
deriving DecidableEq, Repr

/-- The part_004 usage map. -/
abbrev StoreP4 := List (String × UsageRecordP4)

def lookupP4 : StoreP4 → String → Option UsageRecordP4
  | [], _ => none
  | (k, v) :: rest, key => if k = key then some v else lookupP4 rest key

def insertP4 : StoreP4 → String → UsageRecordP4 → StoreP4
  | [], key, v => [(key, v)]
  | (k, w) :: rest, key, v =>
      if k = key then (key, v) :: rest else (k, w) :: insertP4 rest key v

/-- The hard-coded VIP list of part_004 (line 31): admin@caption.ai and
vip@test.com; its `isVipEmail` (line 35) only lowercases, it does not
trim. -/
def vipEmailsP4 : List String := ["admin@caption.ai", "vip@test.com"]

def isVipEmailP4 (e : String) : Bool :=
  (vipEmailsP4.contains (String.mk (e.data.map Char.toLower)) : Bool)

/-- 1000 * 60 * 60 * 24 ms, the cache window of the part_004 mock check. -/
def dayMillis : Nat := 86400000

/-- Observable outcome of a part_004 metered request. -/
structure GenResultP4 where
  status : Nat
  store : StoreP4
  aiCalled : Bool
deriving DecidableEq, Repr

/-- `refreshStripeSubscriptionStatus` of part_004 (lines 48-64): a mock
that answers from the record itself — `true` when the record is
subscribed and was checked within a day, otherwise it stamps
`lastCheck` and returns `record.subscribed`.  Either way the returned
value equals `record.subscribed`. -/
def refreshP4 (now : Nat) (r : UsageRecordP4) : Bool × UsageRecordP4 :=
  if r.subscribed && now - r.lastCheck < dayMillis then
    (true, r)
  else
    (r.subscribed, { r with lastCheck := now })

/-- POST /generate of part_004 (lines 101-185), textually identical in
part_005 (lines 89-167).  After `getUserUsage`, a stored count of 0 is
overwritten with the client-supplied `currentGenerations`
(`parseInt(currentGenerations) || 0`, modelled as an optional parsed
value defaulting to 0) *before* the quota check; the count is
incremented before the Groq call and decremented again in the catch
block on failure. -/
def generateP4 (freeLimit : Nat) (fieldsPresent : Bool) (email : String)
    (currentGenerations : Option Nat) (now : Nat) (groqOk : Bool)
    (store : StoreP4) : GenResultP4 :=
  if !fieldsPresent then
    { status := 400, store := store, aiCalled := false }
  else
    let key := normalizeEmail email
    let r0 := (lookupP4 store key).getD
      { subscribed := false, generations := 0, lastCheck := 0 }
    let r1 :=
      if r0.generations = 0 then
        { r0 with generations := currentGenerations.getD 0 }
      else r0
    let isVip := isVipEmailP4 email
    let (subActive, r2) := refreshP4 now r1
    let r3 :=
      if subActive then { r2 with subscribed := true }
      else if !isVip then
        { r2 with subscribed := false, generations := jsOrZero r2.generations }
      else r2
    let r4 := if isVip then { r3 with subscribed := true } else r3
    if !r4.subscribed && freeLimit ≤ r4.generations then
      { status := 402, store := insertP4 store key r4, aiCalled := false }
    else
      let r5 := { r4 with generations := r4.generations + 1 }
      if groqOk then
        { status := 200, store := insertP4 store key r5, aiCalled := true }
      else
        { status := 500,
          store := insertP4 store key { r5 with generations := r5.generations - 1 },
          aiCalled := true }

/-- POST /optimize of part_004 (lines 189-265), textually identical in
part_005 (lines 171-241): the same client-seeded count, gate and
increment/decrement accounting as `generateP4`; only the prompts and the
required fields (captions, email) differ. -/
def optimizeP4 (freeLimit : Nat) (fieldsPresent : Bool) (email : String)
    (currentGenerations : Option Nat) (now : Nat) (groqOk : Bool)
    (store : StoreP4) : GenResultP4 :=
  if !fieldsPresent then
    { status := 400, store := store, aiCalled := false }
  else
    let key := normalizeEmail email
    let r0 := (lookupP4 store key).getD
      { subscribed := false, generations := 0, lastCheck := 0 }
    let r1 :=
      if r0.generations = 0 then
        { r0 with generations := currentGenerations.getD 0 }
      else r0
    let isVip := isVipEmailP4 email
    let (subActive, r2) := refreshP4 now r1
    let r3 :=
      if subActive then { r2 with subscribed := true }
      else if !isVip then
        { r2 with subscribed := false, generations := jsOrZero r2.generations }
      else r2
    let r4 := if isVip then { r3 with subscribed := true } else r3
    if !r4.subscribed && freeLimit ≤ r4.generations then
      { status := 402, store := insertP4 store key r4, aiCalled := false }
    else
      let r5 := { r4 with generations := r4.generations + 1 }
      if groqOk then
        { status := 200, store := insertP4 store key r5, aiCalled := true }
      else
        { status := 500,
          store := insertP4 store key { r5 with generations := r5.generations - 1 },
          aiCalled := true }

/-! ## Interleaving model of concurrent requests (first server.js variant)

Node.js runs request handlers on a single thread and can only switch
between them at `await` points.  In the first server.js /generate
handler the only suspension points are the Stripe call (line 131) and
the Groq call (line 165); consequently a request decomposes into two
atomic accesses to the shared `usage` entry of one identity:

* `init` — `getUserUsage` (lines 47-55), which creates the default
  record when absent (runs before the Stripe `await`);
* `gate` — the synchronous block of lines 134-157: subscription update,
  quota check, and the increment, with no `await` in between.

Any concurrent execution of N requests for one identity is an
interleaving of their `init` and `gate` actions in which every request
performs `init` before `gate`.  The model below fixes a non-VIP identity
whose Stripe check resolves `false` for every request (the scenario of
the claim: a free-tier user) and tracks the single shared record
together with the tally of allowed and denied requests. -/

/-- The two atomic store accesses of one request. -/
inductive GateAct
  | init
  | gate
deriving DecidableEq, Repr

/-- Shared state seen by the interleaved requests: the record of the one
identity (none before `getUserUsage` first runs) and the decision tally. -/
structure RaceState where
  entry : Option UsageRecord
  allowed : Nat
  denied : Nat
deriving DecidableEq, Repr

/-- One atomic action against the shared entry, for a non-VIP identity
whose Stripe check resolves `false`.  `init` lazily creates
`{ generations: 0, subscribed: false }`; `gate` runs the subscription
update, the quota check of line 152 and, when allowed, the increment of
line 156.  A `gate` can only run after some `init` (each request runs
its own `init` first), so the `none` case of `gate` is unreachable under
valid schedules and is a no-op. -/
def raceStep (freeLimit : Nat) (s : RaceState) : GateAct → RaceState
  | .init =>
      match s.entry with
      | none => { s with entry := some { generations := 0, subscribed := false } }
      | some _ => s
  | .gate =>
      match s.entry with
      | none => s
      | some r =>
          let r1 := subscriptionUpdate false .inactive r
          if !r1.subscribed && freeLimit ≤ r1.generations then
            { s with entry := some r1, denied := s.denied + 1 }
          else
            { s with
                entry := some { r1 with generations := r1.generations + 1 },
                allowed := s.allowed + 1 }

/-- Run an interleaving (a schedule of atomic actions). -/
def raceRun (freeLimit : Nat) (acts : List GateAct) (s : RaceState) : RaceState :=
  acts.foldl (raceStep freeLimit) s

/-- A schedule is valid when every `gate` is preceded by more `init`s
than `gate`s (each request performs `init` before `gate`); `s` is the
current surplus of `init`s over `gate`s. -/
def validSched : Nat → List GateAct → Bool
  | _, [] => true
  | s, .init :: rest => validSched (s + 1) rest
  | s, .gate :: rest => decide (0 < s) && validSched (s - 1) rest

/-- Number of `init` actions in a schedule. -/
def countInit : List GateAct → Nat
  | [] => 0
  | .init :: rest => countInit rest + 1
  | .gate :: rest => countInit rest

/-- Number of `gate` actions in a schedule. -/
def countGate : List GateAct → Nat
  | [] => 0
  | .init :: rest => countGate rest
  | .gate :: rest => countGate rest + 1

/-- Shared state after `a` executed `init`s and `b` executed `gate`s of
identical free-tier requests (the closed form proved by
`raceRun_closed_form`). -/
def raceSnapshot (freeLimit a b : Nat) : RaceState :=
  { entry := if a = 0 then none
           else some { generations := min b freeLimit, subscribed := false },
    allowed := min b freeLimit,
    denied := b - min b freeLimit }

/-- `n` consecutive (non-interleaved) successful /generate requests of
the first server.js variant for one identity, starting from an empty
store, with the Stripe check confirming "not subscribed" each time. -/
def genIterV1 (vips : List String) (freeLimit : Nat) (email : String) :
    Nat → Store
  | 0 => []
  | n + 1 =>
      (generateV1 vips freeLimit true email .inactive true
        (genIterV1 vips freeLimit email n)).store

/-! ## Helper lemmas -/

@[simp]
theorem jsOrZero_eq (n : Nat) : jsOrZero n = n := by
  unfold jsOrZero
  split <;> omega

@[simp]
theorem lookupRec_insertRec_self (s : Store) (k : String) (v : UsageRecord) :
    lookupRec (insertRec s k v) k = some v := by
  induction s with
  | nil => simp [insertRec, lookupRec]
  | cons hd tl ih =>
      obtain ⟨k', v'⟩ := hd
      by_cases h : k' = k <;> simp [insertRec, lookupRec, h, ih]

@[simp]
theorem insertRec_insertRec_self (s : Store) (k : String) (v w : UsageRecord) :
    insertRec (insertRec s k v) k w = insertRec s k w := by
  induction s with
  | nil => simp [insertRec]
  | cons hd tl ih =>
      obtain ⟨k', v'⟩ := hd
      by_cases h : k' = k <;> simp [insertRec, h, ih]

@[simp]
theorem subscriptionUpdate_vip (stripe : StripeStatus) (r : UsageRecord) :
    (subscriptionUpdate true stripe r).subscribed = true := by
  cases stripe <;> simp [subscriptionUpdate]

@[simp]
theorem subscriptionUpdate_nonvip_inactive (r : UsageRecord) :
    subscriptionUpdate false .inactive r = { r with subscribed := false } := by
  simp [subscriptionUpdate]

@[simp]
theorem subscriptionUpdate_nonvip_unknown (r : UsageRecord) :
    subscriptionUpdate false .unknown r = r := by
  simp [subscriptionUpdate]

/-! ## Claim theorems -/

/-- C2 (code_bug evidence): in the first server.js /generate variant the
counter is incremented *before* the generation call and kept when the
call fails — a failed generation consumes quota.  At the failing input
(fresh non-VIP, non-subscribed identity; Stripe check `false`; Groq call
fails) the handler answers 500 with the stored count raised from 0 to 1,
while the second server.js variant — whose own comment reads "Increment
usage only on successful AI generation" — leaves the count at 0 on the
same input. -/
theorem c2_failed_generation_still_charged :
    (generateV1 [] 10 true "a@x.com" .inactive false []).status = 500 ∧
    lookupRec (generateV1 [] 10 true "a@x.com" .inactive false []).store "a@x.com" =
      some { generations := 1, subscribed := false } ∧
    (generateV2 [] 10 true "a@x.com" .inactive false []).status = 500 ∧
    lookupRec (generateV2 [] 10 true "a@x.com" .inactive false []).store "a@x.com" =
      some { generations := 0, subscribed := false } := by
  decide

/-- C3: for a VIP identity, POST /generate and POST /optimize (first
server.js variant) never answer 402, always reach the generation call,
and persist `subscribed = true`, for every prior store, every stored
count, and every Stripe outcome — including a confirmed `false`. -/
theorem c3_vip_always_allowed (vips : List String) (freeLimit : Nat)
    (email : String) (stripe : StripeStatus) (groqOk : Bool) (store : Store)
    (hv : isVipEmail vips email = true) :
    ((generateV1 vips freeLimit true email stripe groqOk store).status ≠ 402 ∧
     (generateV1 vips freeLimit true email stripe groqOk store).aiCalled = true ∧
     (lookupRec (generateV1 vips freeLimit true email stripe groqOk store).store
         (normalizeEmail email)).map UsageRecord.subscribed = some true) ∧
    ((optimizeV1 vips freeLimit true email stripe groqOk store).status ≠ 402 ∧
     (optimizeV1 vips freeLimit true email stripe groqOk store).aiCalled = true ∧
     (lookupRec (optimizeV1 vips freeLimit true email stripe groqOk store).store
         (normalizeEmail email)).map UsageRecord.subscribed = some true) := by
  have hopt : optimizeV1 vips freeLimit true email stripe groqOk store =
      generateV1 vips freeLimit true email stripe groqOk store := rfl
  rw [hopt]
  refine ⟨?_, ?_⟩ <;>
    · simp only [generateV1, hv, subscriptionUpdate_vip, Bool.not_true,
        Bool.false_and, if_neg, Bool.false_eq_true, not_false_eq_true,
        ite_false]
      cases groqOk <;> simp

/-- Witness for C3 at a concrete input: a VIP at count 99 whose Stripe
check confirms "not subscribed" is still allowed and left subscribed. -/
theorem c3_vip_always_allowed_witness :
    (generateV1 ["vip@x.com"] 10 true "VIP@x.com " .inactive true
        [("vip@x.com", { generations := 99, subscribed := false })]).status ≠ 402 ∧
    (lookupRec (generateV1 ["vip@x.com"] 10 true "VIP@x.com " .inactive true
        [("vip@x.com", { generations := 99, subscribed := false })]).store
      (normalizeEmail "VIP@x.com ")).map UsageRecord.subscribed = some true :=
  ⟨((c3_vip_always_allowed ["vip@x.com"] 10 "VIP@x.com " .inactive true
      [("vip@x.com", { generations := 99, subscribed := false })] (by decide)).1).1,
   ((c3_vip_always_allowed ["vip@x.com"] 10 "VIP@x.com " .inactive true
      [("vip@x.com", { generations := 99, subscribed := false })] (by decide)).1).2.2⟩

/-- C5: processing an `invoice.payment_failed` event (second server.js
variant, identical in part_003) for a VIP identity leaves the store
untouched; for a non-VIP identity it overwrites the record of that
identity with `subscribed = false`, `generations = 0`. -/
theorem c5_payment_failed_vip_guard (vips : List String) (store : Store)
    (e : String) :
    (isVipEmail vips e = true →
      webhookV2 vips store ⟨true, .invoicePaymentFailed, some e⟩ = (200, store)) ∧
    (isVipEmail vips e = false →
      webhookV2 vips store ⟨true, .invoicePaymentFailed, some e⟩ =
        (200, insertRec store (normalizeEmail e)
          { generations := 0, subscribed := false })) := by
  constructor <;> intro h <;> simp [webhookV2, h]

/-- Witness for C5 at concrete inputs: the VIP email is untouched, the
ordinary email is downgraded and reset. -/
theorem c5_payment_failed_vip_guard_witness :
    webhookV2 ["vip@x.com"] [] ⟨true, .invoicePaymentFailed, some "vip@x.com"⟩ =
      (200, []) ∧
    webhookV2 ["vip@x.com"] [] ⟨true, .invoicePaymentFailed, some "u@x.com"⟩ =
      (200, [("u@x.com", { generations := 0, subscribed := false })]) := by
  constructor
  · exact (c5_payment_failed_vip_guard ["vip@x.com"] [] "vip@x.com").1 (by decide)
  · rw [(c5_payment_failed_vip_guard ["vip@x.com"] [] "u@x.com").2 (by decide)]
    decide

/-- C6: replaying the same `checkout.session.completed` event (first
server.js webhook) is idempotent — the second application leaves the
store exactly as the first — and the resulting record is the overwrite
`{ generations: 0, subscribed: true }`. -/
theorem c6_activation_idempotent (store : Store) (e : String) :
    (webhookV1 (webhookV1 store ⟨true, .checkoutCompleted, some e⟩).2
        ⟨true, .checkoutCompleted, some e⟩).2 =
      (webhookV1 store ⟨true, .checkoutCompleted, some e⟩).2 ∧
    lookupRec (webhookV1 store ⟨true, .checkoutCompleted, some e⟩).2
        (normalizeEmail e) =
      some { generations := 0, subscribed := true } := by
  constructor <;> simp [webhookV1]

/-- C7 counterexample: the part_000 GET /check-subscription mutates the
user store — querying an unseen identity persists a fresh default
document, so the store after the query differs from the store before. -/
theorem c7_part000_query_creates_record :
    (checkSubscriptionP0 (some "a@x.com") []).2 ≠ ([] : UserStore) := by
  decide

/-- C7 (amended): the server.js entitlement query never mutates the
usage store, and the part_000 variant leaves its user store unchanged
whenever the queried identity already has a record — it mutates only by
lazily creating the default document for an unseen identity. -/
theorem c7_query_no_mutation :
    (∀ (email : Option String) (store : Store),
        (checkSubscriptionV1 email store).2 = store) ∧
    (∀ (e : String) (store : UserStore) (u : UserDoc),
        lookupUser store (normalizeEmail e) = some u →
        (checkSubscriptionP0 (some e) store).2 = store) := by
  constructor
  · intro email store
    cases email <;> simp [checkSubscriptionV1]
  · intro e store u h
    simp [checkSubscriptionP0, h]

/-- Witness for C7 at a concrete input: querying an identity that
already has a document leaves the part_000 store unchanged. -/
theorem c7_query_no_mutation_witness :
    (checkSubscriptionP0 (some "a@x.com")
        [("a@x.com", { freeGenerations := 3, isPro := false })]).2 =
      [("a@x.com", { freeGenerations := 3, isPro := false })] :=
  c7_query_no_mutation.2 "a@x.com"
    [("a@x.com", { freeGenerations := 3, isPro := false })]
    { freeGenerations := 3, isPro := false } (by decide)

/-- C8: the first server.js webhook answers 400 and performs no state
mutation when signature verification fails, and answers 200 whenever the
signature verifies — including unhandled event types and payloads whose
email cannot be resolved. -/
theorem c8_webhook_signature_gate (store : Store) (d : WebhookDelivery) :
    (d.sigValid = false → webhookV1 store d = (400, store)) ∧
    (d.sigValid = true → (webhookV1 store d).1 = 200) := by
  obtain ⟨sv, et, em⟩ := d
  constructor <;> intro h <;> subst h
  · simp [webhookV1]
  · cases et <;> cases em <;> simp [webhookV1]

/-- Witness for C8 at concrete inputs: a bad signature on a valid event
is rejected 400 without mutation; a good signature on an unhandled event
with no resolvable email is answered 200. -/
theorem c8_webhook_signature_gate_witness :
    webhookV1 [] ⟨false, .checkoutCompleted, some "a@x.com"⟩ = (400, []) ∧
    (webhookV1 [] ⟨true, .other, none⟩).1 = 200 :=
  ⟨(c8_webhook_signature_gate [] ⟨false, .checkoutCompleted, some "a@x.com"⟩).1 rfl,
   (c8_webhook_signature_gate [] ⟨true, .other, none⟩).2 rfl⟩

/-- C4 counterexample: in the part_001 variant a thrown billing call is
reported as `false`, so a previously-subscribed non-VIP identity at the
free limit is denied (402) and its persisted `subscribed` flag is
flipped to false — the claimed behaviour (Unknown leaves the stored
value unchanged and a previously-subscribed identity is still Allowed)
fails when the billing call throws in this variant, even though the
provider would have answered active. -/
theorem c4_part001_throw_revokes :
    (generateP1 [] 10 true "a@x.com" true true true
        [("a@x.com", { generations := 10, subscribed := true })]).status = 402 ∧
    lookupRec (generateP1 [] 10 true "a@x.com" true true true
        [("a@x.com", { generations := 10, subscribed := true })]).store "a@x.com" =
      some { generations := 10, subscribed := false } := by
  decide

/-- C4 (amended): in the server.js handlers, where a thrown or timed-out
billing call yields `null` (Unknown), the persisted `subscribed` value is
preserved (a VIP is additionally forced to subscribed), a
previously-subscribed identity is still allowed and reaches the
generation call, and the verifier failure is never surfaced as a request
failure (no 500 unless the generation call itself fails); the part_001
variant instead maps a thrown billing call to `false` and can revoke a
previously-subscribed non-VIP identity. -/
theorem c4_unknown_preserves_state (vips : List String) (freeLimit : Nat)
    (email : String) (groqOk : Bool) (store : Store) (g : Nat) (sub : Bool)
    (h : lookupRec store (normalizeEmail email) =
      some { generations := g, subscribed := sub }) :
    ((lookupRec (generateV1 vips freeLimit true email .unknown groqOk store).store
        (normalizeEmail email)).map UsageRecord.subscribed =
      some (sub || isVipEmail vips email)) ∧
    (sub = true →
      (generateV1 vips freeLimit true email .unknown groqOk store).status ≠ 402 ∧
      (generateV1 vips freeLimit true email .unknown groqOk store).aiCalled = true) ∧
    (groqOk = true →
      (generateV1 vips freeLimit true email .unknown groqOk store).status ≠ 500) := by
  cases hv : isVipEmail vips email <;>
    simp only [generateV1, hv, h, Option.getD_some, subscriptionUpdate_vip,
      subscriptionUpdate_nonvip_unknown, Bool.not_true, Bool.false_and,
      Bool.or_true, Bool.or_false] <;>
    [skip; simp] <;>
  · cases sub
    · by_cases hq : freeLimit ≤ g <;> cases groqOk <;> simp [hq]
    · cases groqOk <;> simp

/-- Witness for C4 at a concrete input: a previously-subscribed non-VIP
identity over the free limit is still allowed when the Stripe check
resolves `null`, and its flag is preserved. -/
theorem c4_unknown_preserves_state_witness :
    ((lookupRec (generateV1 [] 10 true "a@x.com" .unknown true
        [("a@x.com", { generations := 10, subscribed := true })]).store
      (normalizeEmail "a@x.com")).map UsageRecord.subscribed =
        some (true || isVipEmail [] "a@x.com")) ∧
    (generateV1 [] 10 true "a@x.com" .unknown true
        [("a@x.com", { generations := 10, subscribed := true })]).status ≠ 402 :=
  ⟨(c4_unknown_preserves_state [] 10 "a@x.com" true
      [("a@x.com", { generations := 10, subscribed := true })] 10 true
      (by decide)).1,
   ((c4_unknown_preserves_state [] 10 "a@x.com" true
      [("a@x.com", { generations := 10, subscribed := true })] 10 true
      (by decide)).2.1 rfl).1⟩

/-- C9: in the part_004 / part_005 handlers, whenever the stored record
for an identity has `generations = 0` (in particular for a fresh
record), the quota decision of both POST /generate and POST /optimize is
taken against the client-supplied `currentGenerations` value: for a
non-VIP, non-subscribed identity the request is denied 402 exactly when
the parsed client value reaches the free limit, so two requests
differing only in this untrusted field receive different decisions. -/
theorem c9_client_seeded_quota (freeLimit : Nat) (email : String)
    (cg : Option Nat) (now : Nat) (groqOk : Bool) (store : StoreP4)
    (h0 : ((lookupP4 store (normalizeEmail email)).getD
        { subscribed := false, generations := 0, lastCheck := 0 }).generations = 0)
    (hs : ((lookupP4 store (normalizeEmail email)).getD
        { subscribed := false, generations := 0, lastCheck := 0 }).subscribed = false)
    (hv : isVipEmailP4 email = false) :
    ((generateP4 freeLimit true email cg now groqOk store).status = 402 ↔
      freeLimit ≤ cg.getD 0) ∧
    ((optimizeP4 freeLimit true email cg now groqOk store).status = 402 ↔
      freeLimit ≤ cg.getD 0) := by
  have hopt : optimizeP4 freeLimit true email cg now groqOk store =
      generateP4 freeLimit true email cg now groqOk store := rfl
  rw [hopt, and_self]
  rcases hrec : (lookupP4 store (normalizeEmail email)).getD
      { subscribed := false, generations := 0, lastCheck := 0 } with ⟨s, g, lc⟩
  rw [hrec] at h0 hs
  simp only at h0 hs
  subst h0; subst hs
  by_cases hq : freeLimit ≤ cg.getD 0 <;>
    · simp only [generateP4, hrec, refreshP4, hv, jsOrZero_eq]
      cases groqOk <;> simp [hq]

/-- Witness for C9 at concrete inputs: for a fresh record, a request
claiming `currentGenerations = 10` is denied while the identical request
claiming 0 is not. -/
theorem c9_client_seeded_quota_witness :
    ((generateP4 10 true "u@a.com" (some 10) 0 true []).status = 402) ∧
    ¬((generateP4 10 true "u@a.com" (some 0) 0 true []).status = 402) :=
  ⟨(c9_client_seeded_quota 10 "u@a.com" (some 10) 0 true [] (by decide)
      (by decide) (by decide)).1.mpr (by decide),
   fun h =>
     (by decide : ¬((10 : Nat) ≤ (some (0 : Nat)).getD 0))
       ((c9_client_seeded_quota 10 "u@a.com" (some 0) 0 true [] (by decide)
         (by decide) (by decide)).1.mp h)⟩

/-- After `n ≤ freeLimit` successful free-tier requests from an empty
store, the stored count for the identity is exactly `n` and the flag is
false. -/
theorem genIterV1_count (vips : List String) (freeLimit : Nat) (email : String)
    (hv : isVipEmail vips email = false) :
    ∀ n, n ≤ freeLimit →
      (lookupRec (genIterV1 vips freeLimit email n) (normalizeEmail email)).getD
          { generations := 0, subscribed := isVipEmail vips email } =
        { generations := n, subscribed := false } := by
  intro n
  induction n with
  | zero =>
      intro _
      simp [genIterV1, lookupRec, hv]
  | succ m ih =>
      intro hle
      have hlt : m < freeLimit := hle
      have hrec := ih (Nat.le_of_succ_le hle)
      rw [hv] at hrec
      simp only [genIterV1, generateV1, hv, hrec, subscriptionUpdate_nonvip_inactive,
        Bool.not_false, Bool.true_and, decide_eq_true_eq]
      rw [if_neg (Nat.not_le.mpr hlt)]
      simp

/-- C1: for a non-VIP identity whose record is not subscribed, the first
server.js /generate and /optimize handlers proceed to the generation
call exactly while the stored count is strictly below the configured
free limit, and after exactly `freeLimit` successful (committed)
requests from a fresh record, the next request is denied 402 without
any generation call. -/
theorem c1_free_tier_quota (vips : List String) (freeLimit : Nat) (email : String)
    (hv : isVipEmail vips email = false) :
    (∀ (store : Store) (g : Nat) (groqOk : Bool),
        (lookupRec store (normalizeEmail email)).getD
            { generations := 0, subscribed := isVipEmail vips email } =
          { generations := g, subscribed := false } →
        g < freeLimit →
        ((generateV1 vips freeLimit true email .inactive groqOk store).status ≠ 402 ∧
         (generateV1 vips freeLimit true email .inactive groqOk store).aiCalled = true ∧
         (optimizeV1 vips freeLimit true email .inactive groqOk store).status ≠ 402 ∧
         (optimizeV1 vips freeLimit true email .inactive groqOk store).aiCalled = true)) ∧
    ((generateV1 vips freeLimit true email .inactive true
        (genIterV1 vips freeLimit email freeLimit)).status = 402 ∧
     (generateV1 vips freeLimit true email .inactive true
        (genIterV1 vips freeLimit email freeLimit)).aiCalled = false ∧
     (lookupRec (generateV1 vips freeLimit true email .inactive true
          (genIterV1 vips freeLimit email freeLimit)).store
        (normalizeEmail email)) =
       some { generations := freeLimit, subscribed := false }) := by
  constructor
  · intro store g groqOk hrec hlt
    rw [hv] at hrec
    have hopt : optimizeV1 vips freeLimit true email .inactive groqOk store =
        generateV1 vips freeLimit true email .inactive groqOk store := rfl
    have key : (generateV1 vips freeLimit true email .inactive groqOk store).status ≠ 402 ∧
        (generateV1 vips freeLimit true email .inactive groqOk store).aiCalled = true := by
      simp only [generateV1, hv, hrec, subscriptionUpdate_nonvip_inactive,
        Bool.not_false, Bool.true_and, decide_eq_true_eq]
      rw [if_neg (Nat.not_le.mpr hlt)]
      cases groqOk <;> simp
    rw [hopt]
    exact ⟨key.1, key.2, key.1, key.2⟩
  · have hrec := genIterV1_count vips freeLimit email hv freeLimit (Nat.le_refl _)
    rw [hv] at hrec
    simp only [generateV1, hv, hrec, subscriptionUpdate_nonvip_inactive,
      Bool.not_false, Bool.true_and, decide_eq_true_eq]
    rw [if_pos (Nat.le_refl freeLimit)]
    simp

/-- Witness for C1 with `freeLimit = 3`: the first request on a fresh
record is allowed, the fourth consecutive successful request is
followed by a 402 denial with no generation call. -/
theorem c1_free_tier_quota_witness :
    (generateV1 [] 3 true "a@x.com" .inactive true []).status ≠ 402 ∧
    (generateV1 [] 3 true "a@x.com" .inactive true
        (genIterV1 [] 3 "a@x.com" 3)).status = 402 ∧
    (generateV1 [] 3 true "a@x.com" .inactive true
        (genIterV1 [] 3 "a@x.com" 3)).aiCalled = false :=
  ⟨((c1_free_tier_quota [] 3 "a@x.com" (by decide)).1 [] 0 true (by decide)
      (by decide)).1,
   ((c1_free_tier_quota [] 3 "a@x.com" (by decide)).2).1,
   ((c1_free_tier_quota [] 3 "a@x.com" (by decide)).2).2.1⟩

/-- Closed form of any valid interleaving: after `a` executed `init`s
and `b` executed `gate`s the shared state is `raceSnapshot freeLimit a
b` — `min b freeLimit` requests allowed, the rest denied. -/
theorem raceRun_closed_form (freeLimit : Nat) :
    ∀ (acts : List GateAct) (a b : Nat), b ≤ a →
      validSched (a - b) acts = true →
      raceRun freeLimit acts (raceSnapshot freeLimit a b) =
        raceSnapshot freeLimit (a + countInit acts) (b + countGate acts) := by
  intro acts
  induction acts with
  | nil =>
      intro a b _ _
      simp [raceRun, countInit, countGate]
  | cons hd tl ih =>
      intro a b hba hv
      cases hd
      case init =>
        have hstep : raceStep freeLimit (raceSnapshot freeLimit a b) .init =
            raceSnapshot freeLimit (a + 1) b := by
          rcases Nat.eq_zero_or_pos a with ha | ha
          · subst ha
            have hb : b = 0 := Nat.le_zero.mp hba
            subst hb
            simp [raceStep, raceSnapshot]
          · have ha1 : ¬(a = 0) := by omega
            have ha2 : ¬(a + 1 = 0) := by omega
            simp [raceStep, raceSnapshot, ha1, ha2]
        have hv' : validSched (a + 1 - b) tl = true := by
          simp only [validSched] at hv
          have heq : a - b + 1 = a + 1 - b := by omega
          rw [← heq]
          exact hv
        calc raceRun freeLimit (.init :: tl) (raceSnapshot freeLimit a b)
            = raceRun freeLimit tl (raceSnapshot freeLimit (a + 1) b) := by
              simp [raceRun, List.foldl, hstep]
          _ = raceSnapshot freeLimit (a + 1 + countInit tl) (b + countGate tl) :=
              ih (a + 1) b (Nat.le_succ_of_le hba) hv'
          _ = raceSnapshot freeLimit (a + countInit (.init :: tl))
                (b + countGate (.init :: tl)) := by
              simp only [countInit, countGate]
              congr 1
              omega
      case gate =>
        simp only [validSched, Bool.and_eq_true, decide_eq_true_eq] at hv
        obtain ⟨hpos, hv0⟩ := hv
        have hblt : b < a := by omega
        have hstep : raceStep freeLimit (raceSnapshot freeLimit a b) .gate =
            raceSnapshot freeLimit a (b + 1) := by
          have ha : ¬(a = 0) := by omega
          simp only [raceSnapshot]
          rw [if_neg ha, if_neg ha]
          simp only [raceStep, subscriptionUpdate_nonvip_inactive, Bool.not_false,
            Bool.true_and, decide_eq_true_eq]
          split
          · rename_i hq
            simp only [RaceState.mk.injEq, Option.some.injEq, UsageRecord.mk.injEq,
              and_true, true_and]
            omega
          · rename_i hq
            simp only [RaceState.mk.injEq, Option.some.injEq, UsageRecord.mk.injEq,
              and_true, true_and]
            omega
        have hv' : validSched (a - (b + 1)) tl = true := by
          have heq : a - b - 1 = a - (b + 1) := by omega
          rw [← heq]
          exact hv0
        calc raceRun freeLimit (.gate :: tl) (raceSnapshot freeLimit a b)
            = raceRun freeLimit tl (raceSnapshot freeLimit a (b + 1)) := by
              simp [raceRun, List.foldl, hstep]
          _ = raceSnapshot freeLimit (a + countInit tl) (b + 1 + countGate tl) :=
              ih a (b + 1) hblt hv'
          _ = raceSnapshot freeLimit (a + countInit (.gate :: tl))
                (b + countGate (.gate :: tl)) := by
              simp only [countInit, countGate]
              congr 1
              omega

/-- C10: in the first server.js /generate variant the quota check and
the increment form one synchronous block between await points, so under
the Node.js event loop any interleaving of N simultaneous free-tier
requests for one identity with `freeLimit = N - 1` yields exactly N - 1
allowed requests and 1 denied request — never N allowed. -/
theorem c10_gate_atomic_no_overshoot (N : Nat) (acts : List GateAct)
    (hN : 1 ≤ N) (hv : validSched 0 acts = true)
    (hi : countInit acts = N) (hg : countGate acts = N) :
    (raceRun (N - 1) acts { entry := none, allowed := 0, denied := 0 }).allowed =
      N - 1 ∧
    (raceRun (N - 1) acts { entry := none, allowed := 0, denied := 0 }).denied = 1 := by
  have h0 : raceSnapshot (N - 1) 0 0 =
      { entry := none, allowed := 0, denied := 0 } := by
    simp [raceSnapshot]
  have hrun := raceRun_closed_form (N - 1) acts 0 0 (Nat.le_refl 0)
    (by simpa using hv)
  rw [h0] at hrun
  rw [hrun, hi, hg]
  simp [raceSnapshot]
  omega

/-- Witness for C10 with N = 2, `freeLimit = 1`: the fully overlapped
schedule (both requests read before either writes its gate block) still
yields exactly 1 allowed and 1 denied. -/
theorem c10_gate_atomic_no_overshoot_witness :
    (raceRun 1 [GateAct.init, GateAct.init, GateAct.gate, GateAct.gate]
        { entry := none, allowed := 0, denied := 0 }).allowed = 1 ∧
    (raceRun 1 [GateAct.init, GateAct.init, GateAct.gate, GateAct.gate]
        { entry := none, allowed := 0, denied := 0 }).denied = 1 :=
  c10_gate_atomic_no_overshoot 2
    [GateAct.init, GateAct.init, GateAct.gate, GateAct.gate]
    (by decide) (by decide) (by decide) (by decide)

end CaptionAI
